import Mathlib

/-
Shallow embedding of the bookspointer ingestion pipeline
(src/scraper.py, src/api.py, src/server.py, src/sheet.py).

Network and HTML parsing are represented by explicit parameters: a
function models each remote fetch or parsed-page result, exactly at the
granularity the source consumes them.  Python dynamic values are
modelled by small inductive types (JSON values, spreadsheet cells), and
Python exceptions by Except / Option results.
-/

namespace Bookspointer

/-- Python's `needle in hay` on strings (substring containment). -/
def strIn (needle hay : String) : Bool :=
  decide (needle.data <:+: hay.data)

/- ----------------------------------------------------------------
   src/scraper.py : BookScraper
   ---------------------------------------------------------------- -/

/-- One entry of the category table loaded from categories.json
(fields `label` and `id`, as read by get_cate_id). -/
structure Category where
  label : String
  id : Int
deriving DecidableEq

/-- `' '.join(category_name)` in get_cate_id (src/scraper.py line 147). -/
def joinKey (category_name : List String) : String :=
  String.intercalate " " category_name

/-- The elif cascade of get_cate_id's loop body (src/scraper.py lines
151-200), applied to the joined key.  Every branch of the Python loop
body ends in `return`, with a final `else: return 20`. -/
def substringChain (key : String) : Int :=
  if strIn "ইতিহাস" key then 1
  else if strIn "কৌতুক" key then 2
  else if strIn "উপন্যাস" key then 3
  else if strIn "থ্রিলার রহস্য রোমাঞ্চ অ্যাডভেঞ্চার" key then 4
  else if strIn "গল্পগ্রন্থ" key then 5
  else if strIn "গল্পের বই" key then 5
  else if strIn "ভ্রমণ কাহিনী" key then 6
  else if strIn "বৈজ্ঞানিক কল্পকাহিনী" key then 9
  else if strIn "ধর্ম ও দর্শন" key then 10
  else if strIn "ইসলামিক বই" key then 10
  else if strIn "ধর্মীয় বই" key then 10
  else if strIn "সংস্কৃত" key then 10
  else if strIn "কাব্যগ্রন্থ / কবিতা" key then 12
  else if strIn "প্রবন্ধ ও গবেষণা" key then 13
  else if strIn "রচনা" key then 13
  else if strIn "কিশোর সাহিত্য" key then 14
  else if strIn "আত্মজীবনী ও স্মৃতিকথা" key then 15
  else if strIn "আত্মউন্নয়নমূলক বই" key then 15
  else if strIn "নাটক" key then 16
  else if strIn "গোয়েন্দা" key then 18
  else if strIn "ভৌতিক" key then 19
  else if strIn "হরর" key then 19
  else if strIn "ভূতের বই" key then 19
  else if strIn "Editor\x27s Choice" key then 5
  else 20

/-- get_cate_id (src/scraper.py lines 126-201).  The `for category in
categories` loop's body is an if/elif/.../else chain in which EVERY
branch is a `return`, so the loop decides everything on its first
iteration: exact match is tested against the first entry only, then the
substring cascade on the joined key, else 20; an empty table falls
through to the trailing `return 20`. -/
def get_cate_id (categories : List Category) (category_name : List String) : Int :=
  let key := joinKey category_name
  match categories with
  | [] => 20
  | c :: _ => if c.label == key then c.id else substringChain key

/-- A Bangla digit, the character class `[০-৯]`. -/
def isBanglaDigit (c : Char) : Bool :=
  0x09E6 ≤ c.toNat && c.toNat ≤ 0x09EF

/-- Python's regex `\s` class on the characters our inputs use. -/
def isPyRegexSpace (c : Char) : Bool :=
  c = ' ' || c = '\t' || c = '\n' || c = '\r' || c = '\x0b' || c = '\x0c'

/-- remove_bangla_number_prefix (src/scraper.py lines 51-53):
`re.sub(r"^[০-৯]+[\.\-\s]*", "", title)` — strip one or more
leading Bangla digits and any following dots, dashes or whitespace. -/
def stripLeadingBanglaNumber (title : String) : String :=
  let cs := title.data
  if (cs.takeWhile isBanglaDigit).isEmpty then title
  else
    String.mk ((cs.dropWhile isBanglaDigit).dropWhile
      (fun c => c = '.' || c = '-' || isPyRegexSpace c))

/-- The parsed landing page of get_html_pages (src/scraper.py lines
111-124): whether the `div.ld-course-status-action a` login marker is
present, and the `a.ld-item-name` hrefs. -/
structure LandingPage where
  loginRequired : Bool
  links : List String
deriving DecidableEq

/-- get_html_pages (src/scraper.py lines 88-124).  First component: the
returned list of page URLs.  Second component: the lines appended to
login_required.txt (`f.write(f"{book_url}\n")` writes exactly one line
when the login marker is present). -/
def get_html_pages (page : LandingPage) (book_url : String) :
    List String × List String :=
  if page.loginRequired then ([], [book_url ++ "\n"])
  else (page.links, [])

/-- The data get_book_details reads off the landing page
(src/scraper.py lines 286-322): the h1 header text, the category label
list, the series anchor text (none when `span.entry-terms-series a` is
absent and the bare except fires), the id suffix of div.ld-tab-content,
and the page URLs produced by get_html_pages. -/
structure LandingData where
  headerTitle : String
  category : List String
  seriesText : Option String
  bookId : String
  pageUrls : List String

/-- The dict returned by get_book_content (src/scraper.py lines
350-384) for one page; a failed request returns None, modelled by the
caller passing `none`. -/
structure PageData where
  content : String
  title : String

/-- The book_info dict handed to get_book_details. -/
structure BookInfo where
  title : String
  author : String
  link : String

/-- The series value: a string normally, the category label list when
the series lookup raised (src/scraper.py lines 297-301). -/
inductive SeriesVal where
  | text (s : String)
  | labels (ls : List String)
deriving DecidableEq

/-- The book dict built by get_book_details (src/scraper.py lines
310-320). -/
structure Book where
  book_id : String
  title : String
  author : String
  author_id : Int
  category : List String
  category_id : Int
  series : SeriesVal
  content : String
  url : String
deriving DecidableEq

/-- Title extraction of get_book_details (src/scraper.py lines 289-293):
prefer the text before an em-dash, else the whole heading. -/
def headerBaseTitle (headerTitle : String) : String :=
  let t1 := if strIn "–" headerTitle then
      ((headerTitle.splitOn "–").headD "").trim
    else "Unknown Title"
  if t1 == "Unknown Title" then headerTitle else t1

/-- One iteration of the page loop of get_book_details (src/scraper.py
lines 323-337).  The accumulator is (books, contents).  A None result
from get_book_content (falsy) contributes nothing; a dict result is
truthy even when its content string is empty: split mode appends a book
per fetched page, aggregate mode appends the page's content string. -/
def crawlStep (book0 : Book) (multi_page : Bool)
    (fetchPage : String → Option PageData)
    (acc : List Book × List String) (url : String) :
    List Book × List String :=
  match fetchPage url with
  | none => acc
  | some pd =>
    if multi_page then
      (acc.1 ++ [{ book0 with
          title := stripLeadingBanglaNumber pd.title,
          content := pd.content,
          url := url }], acc.2)
    else
      (acc.1, acc.2 ++ [pd.content])

/-- get_book_details (src/scraper.py lines 248-348).  `contents` starts
as `[content_str]` with `content_str = ''` (line 306-307, the landing
extraction being commented out), the page loop folds crawlStep over the
resolved page URLs, the aggregate content is `'<br/>'.join(contents)`,
and the aggregate book is appended unless that join is the empty
string (lines 339-345). -/
def get_book_details (categories : List Category) (landing : LandingData)
    (fetchPage : String → Option PageData) (book_info : BookInfo)
    (author_id : Int) (multi_page : Bool) : List Book :=
  let title := headerBaseTitle landing.headerTitle
  let cate_id := get_cate_id categories landing.category
  let series := match landing.seriesText with
    | some s => SeriesVal.text s
    | none => SeriesVal.labels landing.category
  let book0 : Book := {
    book_id := landing.bookId,
    title := stripLeadingBanglaNumber title,
    author := book_info.author,
    author_id := author_id,
    category := landing.category,
    category_id := cate_id,
    series := series,
    content := "",
    url := book_info.link }
  let st := landing.pageUrls.foldl (crawlStep book0 multi_page fetchPage) ([], [""])
  let content := String.intercalate "<br/>" st.2
  if content == "" then st.1 else st.1 ++ [{ book0 with content := content }]

/- ----------------------------------------------------------------
   JSON values, for src/api.py and src/server.py
   ---------------------------------------------------------------- -/

/-- A parsed JSON (Python) value. -/
inductive JVal where
  | obj (fields : List (String × JVal))
  | arr (elems : List JVal)
  | str (s : String)
  | num (n : Int)
  | bool (b : Bool)
  | null

/-- The Python exceptions subscripting can raise. -/
inductive PyErr where
  | keyError
  | typeError
deriving DecidableEq

/-- Python `v[k]` for a string key: a KeyError on a dict without the
key, a TypeError on any non-dict value. -/
def pyGetItem (v : JVal) (k : String) : Except PyErr JVal :=
  match v with
  | .obj fields =>
    match fields.lookup k with
    | some x => .ok x
    | none => .error .keyError
  | _ => .error .typeError

/- ----------------------------------------------------------------
   src/api.py : BookspointerAPI.post_book
   ---------------------------------------------------------------- -/

/-- How post_book's try/except (src/api.py lines 114-124) ends.
`posted` means the `book_api.update(book['book_id'], {'is_posted':
True})` call ran; `failedLocal` is the `except Exception` branch that
composes a failure message and does not update; `raised` is an
exception escaping the `except KeyError` handler itself (the
`response.json()['message']` lookup failing), which no clause catches. -/
inductive PostOutcome where
  | posted
  | failedLocal
  | raised
deriving DecidableEq

/-- post_book's response handling (src/api.py lines 111-124),
parameterised by the parsed response: `none` when `response.json()`
raises (malformed body, caught by `except Exception`), otherwise the
JSON value.  `response.json()['last_book']['id']` succeeding posts;
a KeyError from it falls to the handler which reads
`response.json()['message']` and posts; a TypeError (non-dict
subscripted) falls to `except Exception`. -/
def postBookOutcome (resp : Option JVal) : PostOutcome :=
  match resp with
  | none => .failedLocal
  | some j =>
    match pyGetItem j "last_book" with
    | .ok lb =>
      match pyGetItem lb "id" with
      | .ok _ => .posted
      | .error .keyError =>
        match pyGetItem j "message" with
        | .ok _ => .posted
        | .error _ => .raised
      | .error .typeError => .failedLocal
    | .error .keyError =>
      match pyGetItem j "message" with
      | .ok _ => .posted
      | .error _ => .raised
    | .error .typeError => .failedLocal

/-- Whether the internal is_posted flag was set by the outcome. -/
def postedFlagSet : PostOutcome → Bool
  | .posted => true
  | _ => false

/- ----------------------------------------------------------------
   src/server.py : TokenAPI.get_all_tokens and BookAPI.get
   ---------------------------------------------------------------- -/

/-- One user-token record as get_all_tokens consumes it: its `token`
field and its `is_verified` field (`none` when the key is absent, so
that `token.get('is_verified') == True` is false). -/
structure TokenRec where
  token : String
  is_verified : Option Bool
deriving DecidableEq

/-- get_all_tokens (src/server.py lines 542-568).  The in-place
`random.shuffle` is modelled by quantifying theorems over permutations
of the fetched pool; the argument here is the already-shuffled record
list.  A non-200 status returns the empty list. -/
def get_all_tokens (status_code : Nat) (shuffled : List TokenRec) : List String :=
  if status_code == 200 then
    (shuffled.filter (fun t => t.is_verified == some true)).map (fun t => t.token)
  else []

/-- Python truthiness of the optional-integer book_id argument of
BookAPI.get: `if book_id:` is false for None and for 0. -/
def pyTruthyOptInt : Option Int → Bool
  | none => false
  | some i => i != 0

/-- `data.pop("content")` on a dict's field list. -/
def popContent (fields : List (String × JVal)) : List (String × JVal) :=
  fields.eraseP (fun p => p.1 == "content")

/-- `if isinstance(data, dict) and "content" in data: data.pop("content")`
(src/server.py lines 250-251), applied to one value. -/
def stripContentIfObj (v : JVal) : JVal :=
  match v with
  | .obj fields =>
    if (fields.lookup "content").isSome then .obj (popContent fields)
    else .obj fields
  | other => other

/-- The `GET books/` branch of BookAPI.get (src/server.py lines
253-258): when the body is a list, strip the content key from each dict
element; everything else is returned unchanged.  (Only dict elements
are exercised here; the source's `"content" in book` would raise on
most non-dict element types.) -/
def listGet (fetchAll : JVal) : JVal :=
  match fetchAll with
  | .arr elems => .arr (elems.map stripContentIfObj)
  | other => other

/-- BookAPI.get (src/server.py lines 229-258), with the two HTTP reads
as parameters: `fetchOne i` is the parsed body of `GET books/{i}/` and
`fetchAll` the parsed body of `GET books/`.  `if book_id:` sends None
AND the id 0 to the list branch. -/
def bookApiGet (fetchOne : Int → JVal) (fetchAll : JVal)
    (book_id : Option Int) : JVal :=
  match book_id with
  | some i => if i != 0 then stripContentIfObj (fetchOne i) else listGet fetchAll
  | none => listGet fetchAll

/- ----------------------------------------------------------------
   src/sheet.py : AuthorSheetManager
   ---------------------------------------------------------------- -/

/-- A spreadsheet cell as get_all_records returns it: a boolean or a
string.  get_unscraped_authors accepts boolean False or the string
"FALSE" (case-insensitively) as unscraped. -/
inductive CellVal where
  | boolVal (b : Bool)
  | strVal (s : String)
deriving DecidableEq

/-- Python `str()` of a cell value. -/
def cellStr : CellVal → String
  | .boolVal true => "True"
  | .boolVal false => "False"
  | .strVal s => s

/-- `is_scraped == False or str(is_scraped).upper() == "FALSE"`
(src/sheet.py line 253). -/
def isUnscrapedCell (c : CellVal) : Bool :=
  (c == .boolVal false) || ((cellStr c).toUpper == "FALSE")

/-- One author as get_authors returns it (src/sheet.py lines 142-151).
External ids are numeric, so the `str()`/`int()` conversions the sheet
code applies round-trip; ids are modelled as integers. -/
structure AuthorRec where
  id : Int
  first_name : String
  last_name : String
  full_name : String
deriving DecidableEq

/-- One row of the verified_authors worksheet, as a get_all_records
record. -/
structure SheetRow where
  id : Int
  first_name : String
  last_name : String
  full_name : String
  author_link : String
  is_scraped : CellVal
deriving DecidableEq

/-- The row_data save_authors_to_sheet appends for one new author
(src/sheet.py lines 197-211): the author's fields, the position-derived
IFERROR/VLOOKUP formula, and its is_scraped value (False). -/
def authorRow (nextRow : Nat) (a : AuthorRec) : SheetRow :=
  { id := a.id,
    first_name := a.first_name,
    last_name := a.last_name,
    full_name := a.full_name,
    author_link := "=IFERROR(VLOOKUP(D" ++ toString nextRow ++ ",Authors,2,0), \"\")",
    is_scraped := .boolVal false }

/-- `set(str(row.get("id", "")) for row in sheet_records)`
(src/sheet.py line 182), as the list of id strings. -/
def existingIds (ledger : List SheetRow) : List String :=
  ledger.map (fun r => toString r.id)

/-- `df[~df["id"].astype(str).isin(existing_ids)]` (src/sheet.py line
185): the incoming authors whose id string is not yet on the sheet. -/
def newAuthorRows (ledger : List SheetRow) (authors : List AuthorRec) :
    List AuthorRec :=
  authors.filter (fun a => !((existingIds ledger).elem (toString a.id)))

/-- save_authors_to_sheet (src/sheet.py lines 154-223): append one row
per genuinely new author, with next_row starting at
`len(sheet_records) + 2` and incrementing.  (An empty author batch hits
the empty-DataFrame/except path and appends nothing, which coincides
with appending an empty list.) -/
def save_authors_to_sheet (ledger : List SheetRow) (authors : List AuthorRec) :
    List SheetRow :=
  ledger ++ (newAuthorRows ledger authors).enum.map
    (fun p => authorRow (ledger.length + 2 + p.1) p.2)

/-- get_unscraped_authors (src/sheet.py lines 225-262). -/
def get_unscraped_authors (ledger : List SheetRow) : List SheetRow :=
  ledger.filter (fun r => isUnscrapedCell r.is_scraped)

/-- The cell write of update_scraped_status: the row's is_scraped
column becomes boolean True. -/
def setScrapedTrue (r : SheetRow) : SheetRow :=
  { r with is_scraped := .boolVal true }

/-- update_scraped_status (src/sheet.py lines 264-322): find the FIRST
row whose id string equals `str(author_id)` and set its is_scraped cell
to True; change nothing when no row matches. -/
def update_scraped_status : List SheetRow → Int → List SheetRow
  | [], _ => []
  | r :: rest, aid =>
    if toString r.id == toString aid then setScrapedTrue r :: rest
    else r :: update_scraped_status rest aid

/-- The observable calls the reconcile loop makes, in order: the
update_scraped_status call for an id, and the author_api.create call
carrying the snapshot sheet record. -/
inductive SyncEvent where
  | updateScraped (author_id : Int)
  | createAuthor (row : SheetRow)
deriving DecidableEq

/-- The `for author in unscraped_authors:` loop of run (src/sheet.py
lines 364-367): for each queued record, update its scraped status in
the ledger FIRST, then issue the catalog create call.  Returns the
final ledger and the ordered event trace.  (`int(author['id'])` is the
identity on the integer ids modelled here.) -/
def processUnscraped : List SheetRow → List SheetRow → List SheetRow × List SyncEvent
  | ledger, [] => (ledger, [])
  | ledger, a :: rest =>
    let next := processUnscraped (update_scraped_status ledger a.id) rest
    (next.1, SyncEvent.updateScraped a.id :: SyncEvent.createAuthor a :: next.2)

/-- The `for i in range(1, 100)` pagination loop of run (src/sheet.py
lines 345-355): accumulate pages from page 1, stopping at the first
empty page (a fetch error also yields an empty batch) or after 99
pages. -/
def collectFrom (pages : Nat → List AuthorRec) : Nat → Nat → List AuthorRec
  | _, 0 => []
  | i, fuel + 1 =>
    let p := pages i
    if p.length == 0 then [] else p ++ collectFrom pages (i + 1) fuel

/-- The accumulated author batch run fetches from the external source. -/
def collectAuthors (pages : Nat → List AuthorRec) : List AuthorRec :=
  collectFrom pages 1 99

/-- run (src/sheet.py lines 324-367): fetch the external author batch,
save the genuinely new ones to the sheet, read back the unscraped rows,
then flip-and-create each.  Returns the final ledger and the event
trace. -/
def runSheet (pages : Nat → List AuthorRec) (ledger : List SheetRow) :
    List SheetRow × List SyncEvent :=
  let ledger1 := save_authors_to_sheet ledger (collectAuthors pages)
  processUnscraped ledger1 (get_unscraped_authors ledger1)

/-- The trace shape of processUnscraped: per queued row, its update
event followed by its create event. -/
def traceOf : List SheetRow → List SyncEvent
  | [] => []
  | a :: rest =>
    SyncEvent.updateScraped a.id :: SyncEvent.createAuthor a :: traceOf rest

/- ----------------------------------------------------------------
   Concrete test inputs
   ---------------------------------------------------------------- -/

/-- Modelled from the spec: the packaged data file categories.json that
get_cate_id loads is not among the repository files here; the spec
(section 3) describes it only as "a static closed set of (label, id)
pairs" with id 20 the default, without enumerating its entries.
`get_cate_id` therefore keeps the table as a parameter, exactly as the
Python function ranges over the loaded list, and this two-entry
stand-in table instantiates it for concrete inputs.  Its second label
is chosen to match none of the substring rules, as any table label
without a dedicated rule (the rule list reaches only the ids 1-6, 9,
10, 12-16 and 18-20) must. -/
def tableFx : List Category := [⟨"ক", 1⟩, ⟨"খমখ", 2⟩]

/-- A one-entry category table whose entry mirrors the history rule. -/
def tableOneFx : List Category := [⟨"ক", 1⟩]

/-- The substrings tested before the "ভৌতিক" rule in get_cate_id's
cascade (src/scraper.py lines 151-190), in source order. -/
def horrorRulePreceders : List String :=
  ["ইতিহাস", "কৌতুক", "উপন্যাস", "থ্রিলার রহস্য রোমাঞ্চ অ্যাডভেঞ্চার",
   "গল্পগ্রন্থ", "গল্পের বই", "ভ্রমণ কাহিনী", "বৈজ্ঞানিক কল্পকাহিনী",
   "ধর্ম ও দর্শন", "ইসলামিক বই", "ধর্মীয় বই", "সংস্কৃত",
   "কাব্যগ্রন্থ / কবিতা", "প্রবন্ধ ও গবেষণা", "রচনা", "কিশোর সাহিত্য",
   "আত্মজীবনী ও স্মৃতিকথা", "আত্মউন্নয়নমূলক বই", "নাটক", "গোয়েন্দা"]

/-- A category table for the crawl scenarios. -/
def catsFx : List Category := [⟨"উপন্যাস", 3⟩]

/-- The landing page of a 3-page book. -/
def landingFx : LandingData :=
  { headerTitle := "বই – লেখক", category := ["উপন্যাস"],
    seriesText := some "সিরিজ", bookId := "123",
    pageUrls := ["u1", "u2", "u3"] }

/-- The book_info dict for the crawl scenarios. -/
def infoFx : BookInfo := { title := "বই", author := "লেখক", link := "L" }

/-- Page fetches of the 3-page book with page contents "A", "B", "". -/
def fetchABempty : String → Option PageData := fun u =>
  if u == "u1" then some ⟨"A", "T1"⟩
  else if u == "u2" then some ⟨"B", "T2"⟩
  else if u == "u3" then some ⟨"", "T3"⟩
  else none

/-- Page fetches of the same 3-page book with all contents empty. -/
def fetchAllEmptyFx : String → Option PageData := fun u =>
  if u == "u1" || u == "u2" || u == "u3" then some ⟨"", "T"⟩ else none

/-- A landing page with the requires-login marker present. -/
def gatedFx : LandingPage := ⟨true, ["p1", "p2"]⟩

/-- An accessible landing page of a single-page book: no login marker,
no content-page anchors. -/
def singlePageFx : LandingPage := ⟨false, []⟩

/-- A token pool of 2 verified and 3 unverified records. -/
def tokenPool5 : List TokenRec :=
  [⟨"t1", some true⟩, ⟨"t2", some false⟩, ⟨"t3", some true⟩,
   ⟨"t4", none⟩, ⟨"t5", some false⟩]

/-- A single-book endpoint whose response always carries a content key. -/
def fetchOneFx : Int → JVal :=
  fun _ => .obj [("content", .str "X"), ("title", .str "T")]

/-- A list endpoint whose body parses to JSON null. -/
def fetchAllFx : JVal := .null

/-- A ledger with one unscraped row. -/
def rowW : SheetRow :=
  { id := 7, first_name := "a", last_name := "b", full_name := "a b",
    author_link := "", is_scraped := CellVal.boolVal false }

/-- An external author source with no authors. -/
def pagesW : Nat → List AuthorRec := fun _ => []

/- ----------------------------------------------------------------
   Helper lemmas
   ---------------------------------------------------------------- -/

theorem existingIds_update (l : List SheetRow) (aid : Int) :
    existingIds (update_scraped_status l aid) = existingIds l := by
  induction l with
  | nil => rfl
  | cons r rest ih =>
    unfold update_scraped_status
    by_cases h : (toString r.id == toString aid) = true
    · simp [h, existingIds, setScrapedTrue]
    · simp only [existingIds, List.map_cons] at ih ⊢
      rw [if_neg h]
      simp only [List.map_cons]
      rw [ih]

theorem existingIds_process (q : List SheetRow) :
    ∀ l, existingIds (processUnscraped l q).1 = existingIds l := by
  induction q with
  | nil => intro l; rfl
  | cons a rest ih =>
    intro l
    show existingIds (processUnscraped (update_scraped_status l a.id) rest).1
      = existingIds l
    rw [ih, existingIds_update]

theorem existingIds_save (ledger : List SheetRow) (authors : List AuthorRec) :
    existingIds (save_authors_to_sheet ledger authors)
      = existingIds ledger
        ++ (newAuthorRows ledger authors).map (fun a => toString a.id) := by
  unfold save_authors_to_sheet existingIds
  rw [List.map_append, List.map_map]
  congr 1
  have hc : ((fun r : SheetRow => toString r.id) ∘
      (fun p : Nat × AuthorRec => authorRow (ledger.length + 2 + p.1) p.2))
      = (fun a : AuthorRec => toString a.id) ∘ Prod.snd := by
    funext p; rfl
  rw [hc, ← List.map_map, List.enum_map_snd]

theorem collect_ids_present (pages : Nat → List AuthorRec)
    (ledger : List SheetRow) :
    ∀ a ∈ collectAuthors pages,
      ((existingIds (runSheet pages ledger).1).elem (toString a.id)) = true := by
  intro a ha
  have hids : existingIds (runSheet pages ledger).1
      = existingIds ledger
        ++ (newAuthorRows ledger (collectAuthors pages)).map
            (fun a => toString a.id) := by
    show existingIds (processUnscraped
        (save_authors_to_sheet ledger (collectAuthors pages)) _).1 = _
    rw [existingIds_process, existingIds_save]
  rw [List.elem_iff, hids, List.mem_append]
  by_cases h : ((existingIds ledger).elem (toString a.id)) = true
  · left
    exact List.elem_iff.mp h
  · right
    have h' : ((existingIds ledger).elem (toString a.id)) = false := by
      simpa using h
    refine List.mem_map.mpr ⟨a, ?_, rfl⟩
    unfold newAuthorRows
    refine List.mem_filter.mpr ⟨ha, ?_⟩
    simp only [Bool.not_eq_true']
    exact h'

theorem create_mem_process (q : List SheetRow) :
    ∀ l r, SyncEvent.createAuthor r ∈ (processUnscraped l q).2 → r ∈ q := by
  induction q with
  | nil => intro l r h; simp [processUnscraped] at h
  | cons a rest ih =>
    intro l r h
    have h' : SyncEvent.createAuthor r = SyncEvent.updateScraped a.id ∨
        SyncEvent.createAuthor r = SyncEvent.createAuthor a ∨
        SyncEvent.createAuthor r
          ∈ (processUnscraped (update_scraped_status l a.id) rest).2 := by
      simpa [processUnscraped] using h
    rcases h' with h' | h' | h'
    · exact absurd h' (by simp)
    · simp only [SyncEvent.createAuthor.injEq] at h'
      simp [h']
    · exact List.mem_cons_of_mem _ (ih _ _ h')

theorem process_trace (q : List SheetRow) :
    ∀ l, (processUnscraped l q).2 = traceOf q := by
  induction q with
  | nil => intro l; rfl
  | cons a rest ih => intro l; simp [processUnscraped, traceOf, ih]

theorem traceOf_create_preceded (q : List SheetRow) :
    ∀ (i : Nat) (r : SheetRow),
      (traceOf q).get? i = some (SyncEvent.createAuthor r) →
      ∃ j, j < i ∧ (traceOf q).get? j = some (SyncEvent.updateScraped r.id) := by
  induction q with
  | nil => intro i r h; simp [traceOf] at h
  | cons a rest ih =>
    intro i r h
    match i with
    | 0 => simp [traceOf] at h
    | 1 =>
      simp only [traceOf, List.get?_cons_succ, List.get?_cons_zero,
        Option.some.injEq, SyncEvent.createAuthor.injEq] at h
      refine ⟨0, Nat.zero_lt_one, ?_⟩
      simp [traceOf, h]
    | n + 2 =>
      have h' : (traceOf rest).get? n = some (SyncEvent.createAuthor r) := by
        simpa [traceOf] using h
      obtain ⟨j, hj, hget⟩ := ih n r h'
      refine ⟨j + 2, by omega, ?_⟩
      simpa [traceOf] using hget

/- ----------------------------------------------------------------
   Claims
   ---------------------------------------------------------------- -/

/-- C1, counterexample: the label "খমখ" sits verbatim at position 1 of
the table with id 2, its joined key matches no substring rule, yet
get_cate_id returns the default 20 — because the loop body returns in
every branch during its first iteration, exact match is never tested
against any entry but the first. -/
theorem c1_counterexample :
    (⟨"খমখ", 2⟩ : Category) ∈ tableFx ∧
    joinKey ["খমখ"] = "খমখ" ∧
    get_cate_id tableFx ["খমখ"] = 20 ∧
    (20 : Int) ≠ 2 := by
  refine ⟨by decide, rfl, by decide, by decide⟩

/-- C1, amended: exact-match precedence holds only for the FIRST table
entry.  classify returns the first entry's id when the joined key
equals its label; for every other key — keys verbatim in the table at
later positions included — the substring cascade (default 20) alone
decides the result. -/
theorem c1_exact_match_first_entry_only (c0 : Category)
    (rest : List Category) (labels : List String) :
    (joinKey labels = c0.label → get_cate_id (c0 :: rest) labels = c0.id) ∧
    (joinKey labels ≠ c0.label →
      get_cate_id (c0 :: rest) labels = substringChain (joinKey labels)) := by
  constructor
  · intro h
    simp [get_cate_id, h]
  · intro h
    have hbeq : (c0.label == joinKey labels) = false := by
      simp only [beq_eq_false_iff_ne, ne_eq]
      exact fun hh => h hh.symm
    simp [get_cate_id, hbeq]

/-- C2: evaluating get_book_details at the failing input.  Aggregate
mode on the 3-page book with page contents "A", "B", "" yields one
book whose content is "<br/>A<br/>B<br/>" — the leading separator
comes from the stubbed landing content placeholder seeding `contents`,
the trailing one from the empty page whose truthy dict still appends
its empty string — not "A<br/>B"; and with all three pages empty the
aggregate is "<br/><br/><br/>", which is not the empty string, so the
book is returned for persistence instead of being discarded. -/
theorem c2_aggregate_divergence :
    ((get_book_details catsFx landingFx fetchABempty infoFx 5 false).map
        (fun b => b.content) = ["<br/>A<br/>B<br/>"]) ∧
    ("<br/>A<br/>B<br/>" ≠ "A<br/>B") ∧
    ((get_book_details catsFx landingFx fetchAllEmptyFx infoFx 5 false).map
        (fun b => b.content) = ["<br/><br/><br/>"]) ∧
    (get_book_details catsFx landingFx fetchAllEmptyFx infoFx 5 false).length = 1 := by
  refine ⟨rfl, by decide, rfl, rfl⟩

/-- C3, counterexample: a gated landing page and an accessible
single-page landing page return the SAME value (the empty list), so
the caller — which consumes the return value only — cannot distinguish
the AccessGated outcome from the empty-page-list outcome; only the
skip-log side effect differs. -/
theorem c3_counterexample :
    (get_html_pages gatedFx "u").1 = (get_html_pages singlePageFx "u").1 ∧
    gatedFx.loginRequired = true ∧
    singlePageFx.loginRequired = false ∧
    (get_html_pages gatedFx "u").2 = ["u\n"] ∧
    (get_html_pages singlePageFx "u").2 = [] := by
  refine ⟨rfl, rfl, rfl, rfl, rfl⟩

/-- C3, amended: when the landing page carries the requires-login
marker, get_html_pages returns the empty list — the very value an
accessible single-page book produces, so the return value does not
distinguish the two — and appends exactly one line containing the URL
to the skip-log file; the gated outcome is observable only through
that side effect. -/
theorem c3_gated_skiplog (page q : LandingPage) (book_url : String)
    (hg : page.loginRequired = true)
    (hq : q.loginRequired = false) (hql : q.links = []) :
    get_html_pages page book_url = ([], [book_url ++ "\n"]) ∧
    (get_html_pages page book_url).1 = (get_html_pages q book_url).1 ∧
    (get_html_pages q book_url).2 = [] := by
  refine ⟨?_, ?_, ?_⟩ <;> simp [get_html_pages, hg, hq, hql]

/-- C3, witness. -/
theorem c3_witness :
    get_html_pages gatedFx "u" = ([], ["u" ++ "\n"]) ∧
    (get_html_pages gatedFx "u").1 = (get_html_pages singlePageFx "u").1 ∧
    (get_html_pages singlePageFx "u").2 = [] :=
  c3_gated_skiplog gatedFx singlePageFx "u" rfl rfl rfl

/-- C4: the is_posted flag is set exactly when post_book's attempt did
not raise: in the branch extracting the publisher's assigned id
(`response.json()['last_book']['id']` succeeding) and in the KeyError
branch that falls back to the publisher's own message field; it is not
set when any other raw exception is handled (malformed body, TypeError
from subscripting a non-dict), nor when the message lookup itself
raises out of the handler. -/
theorem c4_posted_flag_semantics (resp : Option JVal) :
    postedFlagSet (postBookOutcome resp) = true ↔
      ∃ j, resp = some j ∧
        ((∃ lb v, pyGetItem j "last_book" = Except.ok lb ∧
            pyGetItem lb "id" = Except.ok v) ∨
          ((pyGetItem j "last_book" = Except.error PyErr.keyError ∨
            ∃ lb, pyGetItem j "last_book" = Except.ok lb ∧
              pyGetItem lb "id" = Except.error PyErr.keyError) ∧
           ∃ m, pyGetItem j "message" = Except.ok m)) := by
  cases resp with
  | none => simp [postBookOutcome, postedFlagSet]
  | some j =>
    cases hlb : pyGetItem j "last_book" with
    | ok lb =>
      cases hid : pyGetItem lb "id" with
      | ok v => simp [postBookOutcome, postedFlagSet, hlb, hid]
      | error e =>
        cases e with
        | keyError =>
          cases hm : pyGetItem j "message" with
          | ok m => simp [postBookOutcome, postedFlagSet, hlb, hid, hm]
          | error em => simp [postBookOutcome, postedFlagSet, hlb, hid, hm]
        | typeError => simp [postBookOutcome, postedFlagSet, hlb, hid]
    | error e =>
      cases e with
      | keyError =>
        cases hm : pyGetItem j "message" with
        | ok m => simp [postBookOutcome, postedFlagSet, hlb, hm]
        | error em => simp [postBookOutcome, postedFlagSet, hlb, hm]
      | typeError => simp [postBookOutcome, postedFlagSet, hlb]

/-- C5: a second reconcile run against the unchanged external source
and the ledger state the first run left behind finds no genuinely new
id (the string diff is empty), appends zero rows to the ledger, and
issues no catalog author-creation call for any ledger row already
marked scraped. -/
theorem c5_second_run_idempotent (pages : Nat → List AuthorRec)
    (ledger : List SheetRow) :
    newAuthorRows (runSheet pages ledger).1 (collectAuthors pages) = [] ∧
    save_authors_to_sheet (runSheet pages ledger).1 (collectAuthors pages)
      = (runSheet pages ledger).1 ∧
    ∀ r ∈ (runSheet pages ledger).1, isUnscrapedCell r.is_scraped = false →
      SyncEvent.createAuthor r ∉ (runSheet pages ((runSheet pages ledger).1)).2 := by
  have hnew : newAuthorRows (runSheet pages ledger).1 (collectAuthors pages) = [] := by
    unfold newAuthorRows
    rw [List.filter_eq_nil_iff]
    intro a ha
    have hp := collect_ids_present pages ledger a ha
    have hm : toString a.id ∈ existingIds (runSheet pages ledger).1 :=
      List.elem_iff.mp hp
    simp [hm]
  refine ⟨hnew, ?_, ?_⟩
  · unfold save_authors_to_sheet
    rw [hnew]
    simp
  · intro r hr hscr hmem
    have hq : r ∈ get_unscraped_authors
        (save_authors_to_sheet ((runSheet pages ledger).1) (collectAuthors pages)) :=
      create_mem_process _ _ _ hmem
    have hun : isUnscrapedCell r.is_scraped = true :=
      (List.mem_filter.mp hq).2
    rw [hscr] at hun
    cases hun

/-- C6: in the reconcile loop's event trace, every catalog
author-creation call is preceded by the update_scraped_status call for
that row's id — the ledger flag update happens first, the create is
never issued before it. -/
theorem c6_update_before_create (pages : Nat → List AuthorRec)
    (ledger : List SheetRow) (i : Nat) (r : SheetRow)
    (h : (runSheet pages ledger).2.get? i = some (SyncEvent.createAuthor r)) :
    ∃ j, j < i ∧
      (runSheet pages ledger).2.get? j = some (SyncEvent.updateScraped r.id) := by
  have ht : (runSheet pages ledger).2
      = traceOf (get_unscraped_authors
          (save_authors_to_sheet ledger (collectAuthors pages))) :=
    process_trace _ _
  rw [ht] at h ⊢
  exact traceOf_create_preceded _ i r h

/-- C6, witness: a one-row unscraped ledger; the create event at index
1 is preceded by the update event for id 7 at index 0. -/
theorem c6_witness :
    ∃ j, j < 1 ∧
      (runSheet pagesW [rowW]).2.get? j
        = some (SyncEvent.updateScraped (7 : Int)) :=
  c6_update_before_create pagesW [rowW] 1 rowW rfl

/-- C7, counterexample: the joined key "ইতিহাস ভৌতিক" contains "ভৌতিক"
and matches no table label verbatim, yet classify returns 1, not 19:
the "ইতিহাস" rule is listed before the "ভৌতিক" rule and wins. -/
theorem c7_counterexample :
    strIn "ভৌতিক" (joinKey ["ইতিহাস ভৌতিক"]) = true ∧
    (∀ c ∈ tableFx, c.label ≠ joinKey ["ইতিহাস ভৌতিক"]) ∧
    get_cate_id tableFx ["ইতিহাস ভৌতিক"] = 1 ∧
    (1 : Int) ≠ 19 := by
  refine ⟨by decide, by decide, by decide, by decide⟩

/-- C7, amended: for a nonempty table and a label sequence whose joined
key contains "ভৌতিক", is not the first table entry's label (in
particular, matches no table label verbatim), and matches none of the
substring rules listed BEFORE the "ভৌতিক" rule, classify returns the
horror id 19 — the ভৌতিক rule takes priority over the rules listed
after it only. -/
theorem c7_horror_substring_rule (c0 : Category) (rest : List Category)
    (labels : List String)
    (hnoexact : c0.label ≠ joinKey labels)
    (hhor : strIn "ভৌতিক" (joinKey labels) = true)
    (hearly : ∀ s ∈ horrorRulePreceders, strIn s (joinKey labels) = false) :
    get_cate_id (c0 :: rest) labels = 19 := by
  have hbeq : (c0.label == joinKey labels) = false := by
    simp only [beq_eq_false_iff_ne, ne_eq]
    exact hnoexact
  simp only [horrorRulePreceders, List.mem_cons, List.not_mem_nil,
    or_false, forall_eq_or_imp, forall_eq] at hearly
  obtain ⟨h1, h2, h3, h4, h5, h6, h7, h8, h9, h10, h11, h12, h13, h14,
    h15, h16, h17, h18, h19, h20⟩ := hearly
  simp [get_cate_id, substringChain, hbeq, hhor, h1, h2, h3, h4, h5, h6,
    h7, h8, h9, h10, h11, h12, h13, h14, h15, h16, h17, h18, h19, h20]

/-- C7, witness: the single-label sequence "ভৌতিক" against a table not
containing it. -/
theorem c7_witness : get_cate_id tableOneFx ["ভৌতিক"] = 19 :=
  c7_horror_substring_rule ⟨"ক", 1⟩ [] ["ভৌতিক"]
    (by decide) (by decide) (by decide)

/-- C8, counterexample: split-mode crawling of the 3-page book with
page contents "A", "B", "" yields 3 in-flight books, not at most 2 —
the truthiness check `if new_content:` tests the fetched dict, not its
content string, so the empty-content page also emits a record. -/
theorem c8_counterexample :
    (get_book_details catsFx landingFx fetchABempty infoFx 5 true).length = 3 ∧
    2 < (get_book_details catsFx landingFx fetchABempty infoFx 5 true).length := by
  refine ⟨rfl, by decide⟩

/-- C8, amended: split-mode crawling of the 3-page book yields one
in-flight book per successfully fetched page — the empty-content page
included, hence 3 records here — each sharing the landing page's
author, author id, category, category id, series and book id, and each
carrying that page's own de-prefixed title, content and URL. -/
theorem c8_split_mode_per_page :
    (get_book_details catsFx landingFx fetchABempty infoFx 5 true).map
        (fun b => (b.title, b.url, b.content, b.author, b.author_id,
          b.category, b.category_id, b.series, b.book_id))
      = [("T1", "u1", "A", "লেখক", 5, ["উপন্যাস"], 3, SeriesVal.text "সিরিজ", "123"),
         ("T2", "u2", "B", "লেখক", 5, ["উপন্যাস"], 3, SeriesVal.text "সিরিজ", "123"),
         ("T3", "u3", "", "লেখক", 5, ["উপন্যাস"], 3, SeriesVal.text "সিরিজ", "123")] :=
  rfl

/-- C9: get_all_tokens returns only tokens coming from records whose
is_verified field is True, and on any shuffle of the pool of 2
verified and 3 unverified records the returned sequence has length
exactly 2. -/
theorem c9_verified_tokens_only (l shuffled : List TokenRec)
    (hperm : shuffled.Perm tokenPool5) :
    (∀ s ∈ get_all_tokens 200 l,
      ∃ t, t ∈ l ∧ t.is_verified = some true ∧ t.token = s) ∧
    (get_all_tokens 200 shuffled).length = 2 := by
  constructor
  · intro s hs
    simp only [get_all_tokens, beq_self_eq_true, if_true, List.mem_map,
      List.mem_filter] at hs
    obtain ⟨t, ⟨htl, hver⟩, htok⟩ := hs
    refine ⟨t, htl, ?_, htok⟩
    simpa using hver
  · have h1 : get_all_tokens 200 shuffled
        = (shuffled.filter (fun t => t.is_verified == some true)).map
            (fun t => t.token) := by
      simp [get_all_tokens]
    rw [h1, List.length_map, ← List.countP_eq_length_filter,
      hperm.countP_eq, List.countP_eq_length_filter]
    rfl

/-- C9, witness: the identity shuffle of the 2-verified, 3-unverified
pool. -/
theorem c9_witness :
    (∀ s ∈ get_all_tokens 200 tokenPool5,
      ∃ t, t ∈ tokenPool5 ∧ t.is_verified = some true ∧ t.token = s) ∧
    (get_all_tokens 200 tokenPool5).length = 2 :=
  c9_verified_tokens_only tokenPool5 tokenPool5 (List.Perm.refl _)

/-- C10, counterexample: calling get with the specific id 0 — whose
single-book response record does contain a content key — does not
return that record with content removed: Python's `if book_id:` treats
0 as falsy, so the call takes the list branch and returns the
`GET books/` body (here JSON null) unchanged. -/
theorem c10_counterexample :
    pyGetItem (fetchOneFx 0) "content" = Except.ok (JVal.str "X") ∧
    bookApiGet fetchOneFx fetchAllFx (some 0) = JVal.null ∧
    JVal.null ≠ JVal.obj [("title", JVal.str "T")] :=
  ⟨rfl, rfl, fun h => JVal.noConfusion h⟩

/-- C10, amended: for every call get(book_id) with a specific NONZERO
id whose response record contains a content key, the returned record
is that record with the content key removed and all other fields
unchanged; the id 0 instead falls into the all-books branch, by
integer truthiness. -/
theorem c10_single_read_strips_content (fetchOne : Int → JVal)
    (fetchAll : JVal) (i : Int) (hi : i ≠ 0)
    (fields : List (String × JVal))
    (hfetch : fetchOne i = JVal.obj fields)
    (hc : (fields.lookup "content").isSome = true) :
    bookApiGet fetchOne fetchAll (some i) = JVal.obj (popContent fields) := by
  have hbne : (i != 0) = true := by simpa using hi
  simp [bookApiGet, hbne, hfetch, stripContentIfObj, hc]

/-- C10, witness: id 7 with a two-field record. -/
theorem c10_witness :
    bookApiGet fetchOneFx fetchAllFx (some 7)
      = JVal.obj [("title", JVal.str "T")] :=
  c10_single_read_strips_content fetchOneFx fetchAllFx 7 (by decide)
    [("content", JVal.str "X"), ("title", JVal.str "T")] rfl rfl

end Bookspointer
